import Mathlib

/-!
Shallow embedding of `src/main.py` (svitlo_bot): a single-file host-availability
monitor.  Pure helpers (`validate_ipv4`, `format_duration`) are embedded as Lean
functions; effectful code (`load_state`, `ping`, `send_telegram`, the body of the
`while True` loop in `main`) is embedded as explicit functions over the inputs the
environment supplies (file contents, probe outcomes, HTTP responses, the sampled
clock), returning traces of the writes and messages the code performs.  `sys.exit(1)`
is modelled as `Except.error`, an uncaught Python exception likewise as
`Except.error` carrying the exception kind.  Strings are handled as `List Char`
(via `String.toList`) so that every definition reduces by structural recursion.
-/

namespace SvitloBot

/-! ### Python `str.split(sep)` for a one-character separator

`"".split(".") = [""]`, separators are never collapsed. -/

/-- Python `str.split` with a single-character separator. -/
def pySplit (sep : Char) : List Char → List (List Char)
  | [] => [[]]
  | c :: cs =>
      if c = sep then [] :: pySplit sep cs
      else
        match pySplit sep cs with
        | [] => [[c]]
        | p :: ps => (c :: p) :: ps

/-! ### Python `int(str)` parsing, as used by `validate_ipv4` and the interval parse

`int()` strips leading/trailing whitespace, allows one leading `+`/`-` sign, and
accepts decimal digits with single underscores strictly between digits.  We model
the ASCII fragment (the inputs of this program are environment-variable strings).
-/

/-- Characters Python's `int()` strips from both ends (ASCII whitespace). -/
def isPySpace (c : Char) : Bool :=
  c = ' ' || c = '\t' || c = '\n' || c = '\r' || c = '\x0b' || c = '\x0c'

/-- Continue parsing a digit run, allowing a single `_` between two digits. -/
def pyDigitsCore : Nat → List Char → Option Nat
  | acc, [] => some acc
  | acc, c :: cs =>
      if c = '_' then
        match cs with
        | [] => none
        | c2 :: cs2 =>
            if c2.isDigit then pyDigitsCore (acc * 10 + (c2.toNat - 48)) cs2
            else none
      else if c.isDigit then pyDigitsCore (acc * 10 + (c.toNat - 48)) cs
      else none

/-- A nonempty digit run (underscores allowed between digits), as `int()` requires
after the optional sign. -/
def pyDigits : List Char → Option Nat
  | [] => none
  | c :: cs => if c.isDigit then pyDigitsCore (c.toNat - 48) cs else none

/-- Python `int` on a character list: `some n` on success, `none` when `int()`
raises `ValueError`. -/
def pyIntChars (s : List Char) : Option Int :=
  match ((s.dropWhile fun c => isPySpace c).reverse.dropWhile
      fun c => isPySpace c).reverse with
  | [] => none
  | c :: rest =>
      if c = '+' then (pyDigits rest).map Int.ofNat
      else if c = '-' then (pyDigits rest).map fun n => -(Int.ofNat n)
      else (pyDigits (c :: rest)).map Int.ofNat

/-- Python `int(s)` on a string. -/
def pyIntParse (s : String) : Option Int :=
  pyIntChars s.toList

/-! ### The validator `validate_ipv4` (src/main.py lines 31-42) -/

/-- The body of the `for part in parts` loop of `validate_ipv4`: `int(part)`
(`ValueError` means reject) followed by the range check `num < 0 or num > 255`. -/
def octet_check (part : List Char) : Bool :=
  match pyIntChars part with
  | some num => if num < 0 ∨ num > 255 then false else true
  | none => false

/-- Model of `validate_ipv4` from src/main.py: split on `"."`, require exactly 4 parts,
and require every part to pass `octet_check`. -/
def validate_ipv4 (ip : String) : Bool :=
  let parts := pySplit '.' ip.toList
  if parts.length ≠ 4 then false
  else parts.all octet_check

/-- Decimal value of a digit run (used only by the spec-side predicate). -/
def digitsVal (p : List Char) : Nat :=
  p.foldl (fun acc c => acc * 10 + (c.toNat - 48)) 0

/-- Spec-side predicate, from the claim's words: the string consists of exactly 4
dot-separated integers, each in [0,255], with no other characters (each segment is
a nonempty run of decimal digits whose value is at most 255). -/
def isStrictDottedQuad (s : String) : Bool :=
  let parts := pySplit '.' s.toList
  (parts.length == 4) && parts.all fun p =>
    !p.isEmpty && p.all Char.isDigit && decide (digitsVal p ≤ 255)

/-! #### Helper lemmas about the `int()` model -/

theorem isDigit_ne_underscore {c : Char} (h : c.isDigit = true) : ¬c = '_' := by
  intro heq
  rw [heq] at h
  exact absurd h (by decide)

theorem isDigit_ne_plus {c : Char} (h : c.isDigit = true) : ¬c = '+' := by
  intro heq
  rw [heq] at h
  exact absurd h (by decide)

theorem isDigit_ne_minus {c : Char} (h : c.isDigit = true) : ¬c = '-' := by
  intro heq
  rw [heq] at h
  exact absurd h (by decide)

theorem isPySpace_eq_false_of_isDigit {c : Char} (h : c.isDigit = true) :
    isPySpace c = false := by
  by_cases h1 : c = ' '
  · rw [h1] at h; exact absurd h (by decide)
  by_cases h2 : c = '\t'
  · rw [h2] at h; exact absurd h (by decide)
  by_cases h3 : c = '\n'
  · rw [h3] at h; exact absurd h (by decide)
  by_cases h4 : c = '\r'
  · rw [h4] at h; exact absurd h (by decide)
  by_cases h5 : c = '\x0b'
  · rw [h5] at h; exact absurd h (by decide)
  by_cases h6 : c = '\x0c'
  · rw [h6] at h; exact absurd h (by decide)
  simp [isPySpace, h1, h2, h3, h4, h5, h6]

theorem dropWhile_eq_self_of_forall {p : Char → Bool} {l : List Char}
    (h : ∀ c ∈ l, p c = false) : l.dropWhile p = l := by
  cases l with
  | nil => rfl
  | cons c cs => simp [List.dropWhile_cons, h c (by simp)]

theorem strip_eq_self {l : List Char} (h : ∀ c ∈ l, isPySpace c = false) :
    ((l.dropWhile fun c => isPySpace c).reverse.dropWhile
      fun c => isPySpace c).reverse = l := by
  rw [dropWhile_eq_self_of_forall h,
    dropWhile_eq_self_of_forall (fun c hc => h c (List.mem_reverse.mp hc)),
    List.reverse_reverse]

theorem pyDigitsCore_all_digits (cs : List Char) :
    ∀ acc : Nat, cs.all Char.isDigit = true →
      pyDigitsCore acc cs =
        some (cs.foldl (fun a c => a * 10 + (c.toNat - 48)) acc) := by
  induction cs with
  | nil => intro acc _; rfl
  | cons c cs ih =>
      intro acc hall
      simp only [List.all_cons, Bool.and_eq_true] at hall
      unfold pyDigitsCore
      rw [if_neg (isDigit_ne_underscore hall.1), if_pos hall.1, ih _ hall.2,
        List.foldl_cons]

theorem pyDigits_all_digits (c : Char) (cs : List Char)
    (hc : c.isDigit = true) (hcs : cs.all Char.isDigit = true) :
    pyDigits (c :: cs) = some (digitsVal (c :: cs)) := by
  simp only [pyDigits]
  rw [if_pos hc, pyDigitsCore_all_digits cs _ hcs]
  unfold digitsVal
  simp

theorem pyIntChars_digit_run (c : Char) (cs : List Char)
    (hc : c.isDigit = true) (hcs : cs.all Char.isDigit = true) :
    pyIntChars (c :: cs) = some ((digitsVal (c :: cs) : Int)) := by
  have hall : ∀ x ∈ c :: cs, isPySpace x = false := by
    intro x hx
    rcases List.mem_cons.mp hx with rfl | hx
    · exact isPySpace_eq_false_of_isDigit hc
    · exact isPySpace_eq_false_of_isDigit (List.all_eq_true.mp hcs x hx)
  simp only [pyIntChars, strip_eq_self hall]
  rw [if_neg (isDigit_ne_plus hc), if_neg (isDigit_ne_minus hc),
    pyDigits_all_digits c cs hc hcs]
  rfl

theorem octet_check_iff (p : List Char) :
    octet_check p = true ↔ ∃ n : Int, pyIntChars p = some n ∧ 0 ≤ n ∧ n ≤ 255 := by
  unfold octet_check
  cases hp : pyIntChars p with
  | none => simp
  | some num =>
    show (if num < 0 ∨ num > 255 then false else true) = true ↔
      ∃ n : Int, some num = some n ∧ 0 ≤ n ∧ n ≤ 255
    by_cases hc : num < 0 ∨ num > 255
    · rw [if_pos hc]
      constructor
      · intro h
        cases h
      · rintro ⟨n, hn, h0, h255⟩
        injection hn with hn
        subst hn
        exact absurd hc (by omega)
    · rw [if_neg hc]
      push_neg at hc
      exact ⟨fun _ => ⟨num, rfl, hc.1, hc.2⟩, fun _ => rfl⟩

theorem validate_ipv4_characterization (s : String) :
    validate_ipv4 s = true ↔
      ((pySplit '.' s.toList).length = 4 ∧
        ∀ p ∈ pySplit '.' s.toList,
          ∃ n : Int, pyIntChars p = some n ∧ 0 ≤ n ∧ n ≤ 255) := by
  unfold validate_ipv4
  by_cases h : (pySplit '.' s.toList).length = 4
  · rw [if_neg (not_not_intro h)]
    simp only [List.all_eq_true, octet_check_iff]
    exact ⟨fun ha => ⟨h, ha⟩, fun hb => hb.2⟩
  · rw [if_pos h]
    constructor
    · intro hf
      cases hf
    · rintro ⟨h4, _⟩
      exact absurd h4 h

theorem strict_quad_accepted (s : String) (h : isStrictDottedQuad s = true) :
    validate_ipv4 s = true := by
  rw [validate_ipv4_characterization]
  unfold isStrictDottedQuad at h
  simp only [Bool.and_eq_true, beq_iff_eq, List.all_eq_true, Bool.not_eq_true',
    decide_eq_true_eq] at h
  obtain ⟨hlen, hparts⟩ := h
  refine ⟨hlen, fun p hp => ?_⟩
  obtain ⟨⟨hne, hdig⟩, hval⟩ := hparts p hp
  cases p with
  | nil => simp at hne
  | cons c cs =>
      refine ⟨(digitsVal (c :: cs) : Int),
        pyIntChars_digit_run c cs (hdig c (by simp))
          (List.all_eq_true.mpr fun a ha => hdig a (List.mem_cons_of_mem c ha)),
        Int.natCast_nonneg _, ?_⟩
      exact_mod_cast hval

/-- C2 (counterexample): `validate_ipv4` accepts `"1.2.3.+4"`, whose last
segment carries a sign character, so it is not four dot-separated integers with
no other characters; this refutes the claimed if-and-only-if. -/
theorem validate_ipv4_accepts_signed_octet :
    validate_ipv4 "1.2.3.+4" = true ∧ isStrictDottedQuad "1.2.3.+4" = false :=
  ⟨by decide, by decide⟩

/-- C2 (amended): `validate_ipv4 s` returns true exactly when `s` splits on `"."`
into exactly 4 segments each of which Python `int()` parses (tolerating
surrounding whitespace, one leading sign, and underscores between digits) to a
value in [0,255]; in particular every strict dotted quad (4 nonempty all-digit
segments with value at most 255) is accepted, and wrong segment counts,
unparseable segments and out-of-range values are rejected. -/
theorem validate_ipv4_amended :
    (∀ s : String, validate_ipv4 s = true ↔
        ((pySplit '.' s.toList).length = 4 ∧
          ∀ p ∈ pySplit '.' s.toList,
            ∃ n : Int, pyIntChars p = some n ∧ 0 ≤ n ∧ n ≤ 255)) ∧
      ∀ s : String, isStrictDottedQuad s = true → validate_ipv4 s = true :=
  ⟨validate_ipv4_characterization, strict_quad_accepted⟩

/-- Witness for C2's amended theorem at the concrete address "10.0.0.5". -/
theorem validate_ipv4_amended_witness :
    isStrictDottedQuad "10.0.0.5" = true ∧ validate_ipv4 "10.0.0.5" = true :=
  ⟨by decide, validate_ipv4_amended.2 "10.0.0.5" (by decide)⟩

example : validate_ipv4 "192.168.0.1" = true := by decide
example : validate_ipv4 "1.2.3" = false := by decide
example : validate_ipv4 "1.2.3.256" = false := by decide
example : validate_ipv4 "1.2.3.+4" = true := by decide
example : validate_ipv4 " 1 .2.3.4" = true := by decide
example : validate_ipv4 "1_0.2.3.4" = true := by decide
example : validate_ipv4 "1.2.3.4a" = false := by decide
example : validate_ipv4 "-1.2.3.4" = false := by decide
example : pyIntParse "1__0" = none := by decide
example : pyIntParse "1_" = none := by decide
example : pyIntParse "_1" = none := by decide
example : pyIntParse " -17 " = some (-17) := by decide
example : pyIntParse "+" = none := by decide
example : isStrictDottedQuad "192.168.0.1" = true := by decide
example : isStrictDottedQuad "1.2.3.+4" = false := by decide

/-! ### Startup configuration (src/main.py lines 23-28 and 122-145) -/

/-- The environment variables `main` reads (`None` = unset). -/
structure PyEnv where
  telegram_bot_token : Option String
  telegram_chat_id : Option String
  target_ipv4 : Option String
  check_interval_seconds : Option String
  tz : Option String

/-- The resolved configuration `main` runs with. -/
structure Config where
  token : String
  chat_id : String
  target_ip : String
  interval : Int
  tz : String
deriving DecidableEq

/-- Model of `get_env_or_exit` (lines 23-28): `sys.exit(1)` when the variable is unset or
empty (Python `if not value`). -/
def get_env_or_exit (v : Option String) : Except Unit String :=
  match v with
  | none => .error ()
  | some s => if s = "" then .error () else .ok s

/-- The startup sequence of `main` (lines 122-145): read the three required
variables, validate the IPv4 address, and parse the interval (default string
"180"); `int()` failure exits, but no positivity check is performed.
`Except.error ()` models `sys.exit(1)`. -/
def startup_config (env : PyEnv) : Except Unit Config :=
  match get_env_or_exit env.telegram_bot_token with
  | .error e => .error e
  | .ok token =>
    match get_env_or_exit env.telegram_chat_id with
    | .error e => .error e
    | .ok chat_id =>
      match get_env_or_exit env.target_ipv4 with
      | .error e => .error e
      | .ok target_ip =>
        if validate_ipv4 target_ip = true then
          match pyIntParse (env.check_interval_seconds.getD "180") with
          | none => .error ()
          | some interval =>
              .ok ⟨token, chat_id, target_ip, interval, env.tz.getD "Europe/Kiev"⟩
        else .error ()

/-- C3 (counterexample): with the interval variable set to "0" — an integer that
is not positive — startup does not exit: it succeeds and enters the monitor loop
with interval 0, refuting the claim that a non-positive integer interval causes
an immediate non-zero exit. -/
theorem startup_config_accepts_zero_interval :
    startup_config ⟨some "t", some "c", some "1.2.3.4", some "0", none⟩ =
        .ok ⟨"t", "c", "1.2.3.4", 0, "Europe/Kiev"⟩ ∧
      ¬(0 : Int) > 0 :=
  ⟨rfl, by decide⟩

/-- C3 (amended): startup rejects the poll interval only when the string fails
Python `int()` parsing; whenever it parses to any integer n — positive or not —
and the other configuration values pass their checks, startup succeeds with
interval n. -/
theorem startup_config_interval_parse_only (env : PyEnv) (t c ip : String) (n : Int)
    (htok : get_env_or_exit env.telegram_bot_token = .ok t)
    (hchat : get_env_or_exit env.telegram_chat_id = .ok c)
    (hip : get_env_or_exit env.target_ipv4 = .ok ip)
    (hv : validate_ipv4 ip = true)
    (hn : pyIntParse (env.check_interval_seconds.getD "180") = some n) :
    startup_config env = .ok ⟨t, c, ip, n, env.tz.getD "Europe/Kiev"⟩ := by
  simp only [startup_config, htok, hchat, hip, hv, if_true, hn]

/-- Witness for C3's amended theorem: a negative interval "-5" is accepted. -/
theorem startup_config_interval_parse_only_witness :
    startup_config ⟨some "t", some "c", some "10.0.0.5", some "-5", none⟩ =
      .ok ⟨"t", "c", "10.0.0.5", -5, "Europe/Kiev"⟩ :=
  startup_config_interval_parse_only _ "t" "c" "10.0.0.5" (-5) rfl rfl rfl
    (by decide) (by decide)

/-! ### Persisted state: JSON model, `load_state` (lines 45-53) and the startup
adoption in `main` (lines 147-155) -/

/-- JSON values as returned by `json.load`.  Object keys are assumed distinct
(which `json.load` guarantees). -/
inductive Json where
  | null
  | bool (b : Bool)
  | num (q : ℚ)
  | str (s : String)
  | arr (elems : List Json)
  | obj (fields : List (String × Json))

/-- Python truthiness `bool(x)` of a parsed JSON value. -/
def truthy : Json → Bool
  | .null => false
  | .bool b => b
  | .num q => decide (q ≠ 0)
  | .str s => !s.isEmpty
  | .arr l => !l.isEmpty
  | .obj l => !l.isEmpty

/-- Uncaught Python exception kinds raised by `state["..."]`. -/
inductive PyError where
  | keyError
  | typeError
deriving DecidableEq

/-- Python `value[key]` for a string key: dict lookup (`KeyError` when the key is
missing), `TypeError` on any non-dict value. -/
def getItem (j : Json) (key : String) : Except PyError Json :=
  match j with
  | .obj fields =>
      match fields.find? (fun kv => kv.1 == key) with
      | some kv => .ok kv.2
      | none => .error .keyError
  | _ => .error .typeError

/-- The condition of the persisted state file when `load_state` runs. -/
inductive StateFile where
  | absent          -- STATE_FILE.exists() is False
  | unreadable      -- open/read raises IOError
  | unparseable     -- json.load raises JSONDecodeError
  | parsed (j : Json)   -- json.load succeeds with value j

/-- Model of `load_state` (lines 45-53): absence returns None; `JSONDecodeError` and
`IOError` are caught and also return None. -/
def load_state : StateFile → Option Json
  | .absent => none
  | .unreadable => none
  | .unparseable => none
  | .parsed j => some j

/-- Lines 147-155 of `main`: `state = load_state()`; `if state:` adopts
`state["status"]` and `state["changed_at"]`, otherwise there is no remembered
state.  An uncaught `KeyError`/`TypeError` from the subscripts is `.error`. -/
def startup_state (fs : StateFile) : Except PyError (Option (Json × Json)) :=
  match load_state fs with
  | none => .ok none
  | some state =>
      if truthy state then
        match getItem state "status" with
        | .error e => .error e
        | .ok s =>
            match getItem state "changed_at" with
            | .error e => .error e
            | .ok c => .ok (some (s, c))
      else .ok none

/-- C1 (counterexample): a persisted record holding the valid JSON object
`{"foo": 1}` — well-formed JSON, truthy, but lacking the status field — makes
startup raise an uncaught KeyError instead of treating the record as absence. -/
theorem startup_state_crashes_on_malformed_record :
    startup_state (.parsed (.obj [("foo", .num 1)])) = .error .keyError ∧
      (Except.error PyError.keyError ≠
        (.ok none : Except PyError (Option (Json × Json)))) :=
  ⟨rfl, fun h => Except.noConfusion h⟩

/-- C1 (amended): whenever `load_state` yields None — the record is absent,
unreadable (IOError) or unparseable (JSONDecodeError) — and also whenever the
parsed value is falsy (e.g. `null`, `{}`, `[]`, `0`), startup treats the record
as absence (cold start) without crashing; a truthy parsed value missing the
status or changed-at field, or not an object, instead raises at startup. -/
theorem startup_state_cold_start :
    (∀ fs : StateFile, load_state fs = none → startup_state fs = .ok none) ∧
      ∀ j : Json, truthy j = false → startup_state (.parsed j) = .ok none := by
  constructor
  · intro fs hload
    unfold startup_state
    rw [hload]
  · intro j hfalsy
    simp [startup_state, load_state, hfalsy]

/-- Witness for C1's amended theorem: an absent file and a parsed-but-falsy
record (`null`) both produce a cold start. -/
theorem startup_state_cold_start_witness :
    startup_state .absent = .ok none ∧ startup_state (.parsed .null) = .ok none :=
  ⟨startup_state_cold_start.1 .absent rfl, startup_state_cold_start.2 .null rfl⟩

/-! ### The probe `ping` (src/main.py lines 64-77) -/

/-- Outcome of the `subprocess.run(["ping", "-c", "1", "-W", "2", ip], ...)` call. -/
inductive PingOutcome where
  | ran (returncode : Int)  -- the tool ran and exited with this code
  | fileNotFound            -- FileNotFoundError: the ping executable is absent
  | otherError              -- any other exception during the check
deriving DecidableEq

/-- Model of `ping` (lines 64-77): `FileNotFoundError` exits the process (`.error ()`
models `sys.exit(1)`); any other exception returns False; otherwise reachability
is `returncode == 0`. -/
def ping : PingOutcome → Except Unit Bool
  | .ran rc => .ok (decide (rc = 0))
  | .fileNotFound => .error ()
  | .otherError => .ok false

/-- C6: a probe terminates the process iff the ping executable is missing; an
exit code from the tool yields `returncode == 0` as the reachability boolean,
and any other exception yields Unreachable (false), never termination. -/
theorem ping_fatal_iff_tool_missing :
    (∀ o : PingOutcome, ping o = .error () ↔ o = .fileNotFound) ∧
      (∀ rc : Int, ping (.ran rc) = .ok (decide (rc = 0))) ∧
      ping .otherError = .ok false := by
  refine ⟨fun o => ?_, fun rc => rfl, rfl⟩
  cases o <;> simp [ping]

/-! ### Duration formatting: `format_duration` (src/main.py lines 80-94)

The Python parameter is a float number of elapsed seconds; we model it as a
rational.  Python `//` and `%` on integers are floor division and floor modulus,
i.e. `Int.fdiv` and `Int.fmod`; `int(seconds // 60)` on a float is `⌊seconds / 60⌋`.
-/

/-- The numeric decomposition in `format_duration` (lines 81-85):
`total_minutes`, then `days`, `remaining`, `hours`, `minutes`. -/
def duration_parts (seconds : ℚ) : Int × Int × Int :=
  let total_minutes : Int := ⌊seconds / 60⌋
  let days := total_minutes.fdiv (24 * 60)
  let remaining := total_minutes.fmod (24 * 60)
  (days, remaining.fdiv 60, remaining.fmod 60)

/-- Model of `format_duration` (lines 80-94): build the parts list (days segment only when
`days > 0`, hours segment when `days > 0 or hours > 0`, minutes always) and
space-join it. -/
def format_duration (seconds : ℚ) : String :=
  match duration_parts seconds with
  | (days, hours, minutes) =>
      String.intercalate " "
        ((if days > 0 then [toString days ++ "д"] else []) ++
         (if days > 0 ∨ hours > 0 then [toString hours ++ "год"] else []) ++
         [toString minutes ++ "хв"])

/-- The duration string exactly as claim C4's formula builds it: total whole
minutes = ⌊seconds/60⌋; days = total div 1440; hours = (total mod 1440) div 60;
minutes = total mod 60 (floor division / floor modulus); days segment only if
days > 0; hours segment if days > 0 or hours > 0; minutes segment always;
space-joined, each value immediately followed by its unit abbreviation. -/
def claimDurationString (seconds : ℚ) : String :=
  let total : Int := ⌊seconds / 60⌋
  let days := total.fdiv 1440
  let hours := (total.fmod 1440).fdiv 60
  let minutes := total.fmod 60
  String.intercalate " "
    ((if days > 0 then [toString days ++ "д"] else []) ++
     (if days > 0 ∨ hours > 0 then [toString hours ++ "год"] else []) ++
     [toString minutes ++ "хв"])

/-- C4 (amended): for every non-negative input, `format_duration` returns exactly
the string built by the claim's formula.  (The claim's parenthetical example for
90000 s is wrong: the code and the formula give hours = 1 there, not 0.) -/
theorem format_duration_eq_claim (s : ℚ) (_h : 0 ≤ s) :
    format_duration s = claimDurationString s := by
  have key : (⌊s / 60⌋.fmod (24 * 60)).fmod 60 = ⌊s / 60⌋.fmod 60 := by
    rw [Int.fmod_eq_emod _ (by norm_num : (0:Int) ≤ 60),
      Int.fmod_eq_emod _ (by norm_num : (0:Int) ≤ 24 * 60),
      Int.fmod_eq_emod _ (by norm_num : (0:Int) ≤ 60),
      Int.emod_emod_of_dvd _ ⟨24, by norm_num⟩]
  simp only [format_duration, claimDurationString, duration_parts, key]
  norm_num

/-- Witness for C4 at 90000 s (= 1 day 1 hour): both sides evaluate to
"1д 1год 0хв". -/
theorem format_duration_eq_claim_witness :
    (0:ℚ) ≤ 90000 ∧ format_duration 90000 = claimDurationString 90000 ∧
      format_duration 90000 = "1д 1год 0хв" := by
  have hfloor : (⌊(90000:ℚ) / 60⌋ : Int) = 1500 := by norm_num
  refine ⟨by norm_num, format_duration_eq_claim 90000 (by norm_num), ?_⟩
  simp only [format_duration, duration_parts, hfloor]
  decide

/-- C4 (counterexample): the claim's example asserts that 90000 s yields
days = 1, hours = 0, minutes = 0 (the string "1д 0год 0хв"); the code yields
hours = 1 (90000 s = 1500 min = 1 day 1 hour). -/
theorem format_duration_90000_example_wrong :
    format_duration 90000 = "1д 1год 0хв" ∧ "1д 1год 0хв" ≠ "1д 0год 0хв" := by
  have hfloor : (⌊(90000:ℚ) / 60⌋ : Int) = 1500 := by norm_num
  constructor
  · simp only [format_duration, duration_parts, hfloor]
    decide
  · decide

/-- C10: `format_duration`'s decomposition is total on negative inputs: for any
negative elapsed-seconds value the days component is negative while hours stays
in [0,23] and minutes stays in [0,59] (floor division, non-negative modulus). -/
theorem duration_parts_negative_input (s : ℚ) (h : s < 0) :
    (duration_parts s).1 < 0 ∧
      0 ≤ (duration_parts s).2.1 ∧ (duration_parts s).2.1 ≤ 23 ∧
      0 ≤ (duration_parts s).2.2 ∧ (duration_parts s).2.2 ≤ 59 := by
  have htot : ⌊s / 60⌋ < 0 := by
    have hq : s / 60 < 0 := div_neg_of_neg_of_pos h (by norm_num)
    by_contra hge
    push_neg at hge
    exact absurd (Int.floor_nonneg.mp hge) (by linarith)
  simp only [duration_parts]
  rw [Int.fdiv_eq_ediv _ (by norm_num : (0:Int) ≤ 24 * 60),
    Int.fmod_eq_emod _ (by norm_num : (0:Int) ≤ 24 * 60),
    Int.fdiv_eq_ediv _ (by norm_num : (0:Int) ≤ 60),
    Int.fmod_eq_emod _ (by norm_num : (0:Int) ≤ 60)]
  norm_num
  omega

/-- Witness for C10 at -90 s: days = -1, hours = 23, minutes = 58. -/
theorem duration_parts_negative_input_witness :
    (-90:ℚ) < 0 ∧
      ((duration_parts (-90)).1 < 0 ∧
        0 ≤ (duration_parts (-90)).2.1 ∧ (duration_parts (-90)).2.1 ≤ 23 ∧
        0 ≤ (duration_parts (-90)).2.2 ∧ (duration_parts (-90)).2.2 ≤ 59) :=
  ⟨by norm_num, duration_parts_negative_input (-90) (by norm_num)⟩

/-! ### Notification sending: `send_telegram` (src/main.py lines 97-119)

One POST attempt either returns an HTTP status code (`some code`) or raises
`requests.RequestException` (`none`).  The trace records the boolean result, the
number of POST attempts performed, and the backoff sleeps executed, in order.
-/

/-- Observable trace of one `send_telegram` call. -/
structure SendTrace where
  result : Bool
  attempts : Nat
  sleeps : List Nat
deriving DecidableEq

/-- The `for attempt in range(max_retries)` loop of `send_telegram`
(lines 102-116): success returns True immediately; otherwise a warning is
logged and, while `attempt < max_retries - 1`, the loop sleeps
`2 ** (attempt + 1)` seconds before retrying.  `remaining` counts the loop
iterations left. -/
def send_attempts (resp : Nat → Option Nat) (max_retries : Nat) :
    Nat → Nat → SendTrace
  | _, 0 => ⟨false, 0, []⟩
  | attempt, remaining + 1 =>
      if resp attempt = some 200 then ⟨true, 1, []⟩
      else
        let rest := send_attempts resp max_retries (attempt + 1) remaining
        ⟨rest.result, rest.attempts + 1,
          (if attempt < max_retries - 1 then [2 ^ (attempt + 1)] else []) ++
            rest.sleeps⟩

/-- Model of `send_telegram` (lines 97-119): `max_retries = 3`, attempts counted from 0,
returns False after the loop exhausts all attempts. -/
def send_telegram (resp : Nat → Option Nat) : SendTrace :=
  send_attempts resp 3 0 3

theorem exists_lt_three (P : Nat → Prop) :
    (∃ i, i < 3 ∧ P i) ↔ P 0 ∨ P 1 ∨ P 2 := by
  constructor
  · rintro ⟨i, hi, h⟩
    interval_cases i <;> tauto
  · rintro (h | h | h)
    exacts [⟨0, by omega, h⟩, ⟨1, by omega, h⟩, ⟨2, by omega, h⟩]

/-- C5: `send_telegram` performs at most 3 attempts; it returns true exactly
when some attempt receives HTTP 200; it stops at the first success (the last
attempt performed is the successful one, all earlier ones failed); the sleeps
executed are exactly 2^i seconds after the i-th failed attempt (1-indexed) for
every failed attempt that was followed by another one — so no sleep follows the
final attempt — and after 3 failed attempts the result is false with sleeps
[2, 4]. -/
theorem send_telegram_retry_contract (resp : Nat → Option Nat) :
    (send_telegram resp).attempts ≤ 3 ∧
      ((send_telegram resp).result = true ↔ ∃ i, i < 3 ∧ resp i = some 200) ∧
      ((send_telegram resp).result = true →
        resp ((send_telegram resp).attempts - 1) = some 200 ∧
          ∀ j, j + 1 < (send_telegram resp).attempts → resp j ≠ some 200) ∧
      ((send_telegram resp).result = false → (send_telegram resp).attempts = 3) ∧
      (send_telegram resp).sleeps =
        (List.range ((send_telegram resp).attempts - 1)).map fun j => 2 ^ (j + 1) := by
  by_cases h0 : resp 0 = some 200
  · simp [send_telegram, send_attempts, h0, exists_lt_three]
  by_cases h1 : resp 1 = some 200
  · simp [send_telegram, send_attempts, h0, h1, exists_lt_three]
    constructor
    · intro j hj
      have hj0 : j = 0 := by omega
      subst hj0
      exact h0
    · decide
  by_cases h2 : resp 2 = some 200
  · simp [send_telegram, send_attempts, h0, h1, h2, exists_lt_three]
    constructor
    · intro j hj
      rcases (by omega : j = 0 ∨ j = 1) with rfl | rfl
      exacts [h0, h1]
    · decide
  · simp [send_telegram, send_attempts, h0, h1, h2, exists_lt_three]
    decide

/-- Witness for C5: all three attempts fail — 3 attempts, result false, sleeps
[2, 4] (2 s after the 1st failure, 4 s after the 2nd, none after the 3rd). -/
theorem send_telegram_retry_contract_witness :
    (send_telegram fun _ => none).attempts = 3 ∧
      (send_telegram fun _ => none).result = false ∧
      (send_telegram fun _ => none).sleeps = [2, 4] :=
  ⟨(send_telegram_retry_contract fun _ => none).2.2.2.1 (by decide),
    by decide, by decide⟩

/-! ### One iteration of the monitor loop (src/main.py lines 157-186)

`current_status` and `changed_at` are set together by the code (both at startup
adoption and on every update), so the remembered state is a single
`Option (String × ℚ)`.  The iteration receives the probe result `is_up`, the
clock sample `now = time.time()` taken right after the probe (line 160), the
formatted time of day `time_str`, and the boolean the `send_telegram` call
returns — which the code discards (line 178), so the parameter is unused.
-/

/-- Observable effects of one loop iteration: the new remembered state, the
`save_state` writes, and the messages passed to `send_telegram`, in order. -/
structure IterResult where
  remembered : Option (String × ℚ)
  saves : List (String × ℚ)
  sent : List String
deriving DecidableEq

/-- Lines 157-184: derive `new_status`, then the three-way decision — initial
adoption (no notification), transition (format the message, send it, update and
persist), or no change. -/
def loop_iter (remembered : Option (String × ℚ)) (is_up : Bool) (now : ℚ)
    (time_str : String) (_send_result : Bool) : IterResult :=
  let new_status := if is_up then "UP" else "DOWN"
  match remembered with
  | none => ⟨some (new_status, now), [(new_status, now)], []⟩
  | some (current_status, changed_at) =>
      if new_status ≠ current_status then
        let duration := now - changed_at
        let duration_str := format_duration duration
        let message :=
          if new_status = "DOWN" then
            time_str ++ " Світло зникло\nВоно було " ++ duration_str
          else
            time_str ++ " Світло з\u0027явилося\nЙого не було " ++ duration_str
        ⟨some (new_status, now), [(new_status, now)], [message]⟩
      else ⟨some (current_status, changed_at), [], []⟩

/-- C7: on a detected transition the remembered state becomes the observed
status with `changed_at = now`, exactly that record is persisted, and the whole
iteration is independent of the boolean `send_telegram` returned — a failed or
exhausted-retries send neither prevents nor alters the update. -/
theorem transition_update_independent_of_send (current_status : String)
    (changed_at now : ℚ) (is_up : Bool) (time_str : String) (b : Bool)
    (h : (if is_up then "UP" else "DOWN") ≠ current_status) :
    (loop_iter (some (current_status, changed_at)) is_up now time_str b).remembered
        = some ((if is_up then "UP" else "DOWN"), now) ∧
      (loop_iter (some (current_status, changed_at)) is_up now time_str b).saves
        = [((if is_up then "UP" else "DOWN"), now)] ∧
      loop_iter (some (current_status, changed_at)) is_up now time_str b
        = loop_iter (some (current_status, changed_at)) is_up now time_str (!b) := by
  refine ⟨?_, ?_, rfl⟩ <;> simp [loop_iter, h]

/-- Witness for C7: remembered DOWN since 0, probe UP at now = 60, for a failed
send (b = false) the state is still updated to ("UP", 60) and persisted. -/
theorem transition_update_independent_of_send_witness :
    ((if true then "UP" else "DOWN") ≠ "DOWN") ∧
      (loop_iter (some ("DOWN", 0)) true 60 "12:00" false).remembered
          = some ((if true then "UP" else "DOWN"), 60) ∧
        (loop_iter (some ("DOWN", 0)) true 60 "12:00" false).saves
          = [((if true then "UP" else "DOWN"), 60)] ∧
        loop_iter (some ("DOWN", 0)) true 60 "12:00" false
          = loop_iter (some ("DOWN", 0)) true 60 "12:00" (!false) :=
  ⟨by decide, transition_update_independent_of_send "DOWN" 0 60 true "12:00" false
    (by decide)⟩

/-- C8: restart continuity.  Loading the persisted record
`{"status": "DOWN", "changed_at": T}` adopts exactly that status and timestamp,
and the first iteration that observes UP sends exactly one notification — the
up-message carrying `format_duration (now - T)` — and persists ("UP", now);
this holds whether the send succeeded or failed. -/
theorem restart_continuity (T now : ℚ) (time_str : String) (b : Bool) :
    startup_state (.parsed (.obj [("status", .str "DOWN"), ("changed_at", .num T)]))
        = .ok (some (.str "DOWN", .num T)) ∧
      loop_iter (some ("DOWN", T)) true now time_str b =
        ⟨some ("UP", now), [("UP", now)],
          [time_str ++ " Світло з\u0027явилося\nЙого не було "
            ++ format_duration (now - T)]⟩ := by
  constructor
  · rfl
  · simp [loop_iter]

/-- C9: every record the loop iteration passes to `save_state` has status
exactly "UP" or "DOWN", equal to the status derived from this iteration's probe
result, and its changed-at is this iteration's single clock sample `now`. -/
theorem saved_records_wellformed (remembered : Option (String × ℚ))
    (is_up : Bool) (now : ℚ) (time_str : String) (b : Bool) :
    ∀ r ∈ (loop_iter remembered is_up now time_str b).saves,
      (r.1 = "UP" ∨ r.1 = "DOWN") ∧
        r.1 = (if is_up then "UP" else "DOWN") ∧ r.2 = now := by
  intro r hr
  match remembered with
  | none =>
      simp only [loop_iter, List.mem_singleton] at hr
      subst hr
      cases is_up <;> simp
  | some (current_status, changed_at) =>
      by_cases h : (if is_up then "UP" else "DOWN") ≠ current_status
      · simp only [loop_iter, if_pos h, List.mem_singleton] at hr
        subst hr
        cases is_up <;> simp
      · simp only [loop_iter, if_neg h, List.not_mem_nil] at hr

/-- Witness for C9: the cold-start adoption save ("UP", 0) satisfies the
invariant. -/
theorem saved_records_wellformed_witness :
    ("UP", (0:ℚ)) ∈ (loop_iter none true 0 "00:00" true).saves ∧
      ((("UP", (0:ℚ)).1 = "UP" ∨ ("UP", (0:ℚ)).1 = "DOWN") ∧
        ("UP", (0:ℚ)).1 = (if true then "UP" else "DOWN") ∧
        ("UP", (0:ℚ)).2 = (0:ℚ)) :=
  ⟨by decide, saved_records_wellformed none true 0 "00:00" true
    ("UP", (0:ℚ)) (by decide)⟩

end SvitloBot
